import Mathlib

/-!
Verification development for the S.S. Syntax custom-command engine:
a shallow embedding of the trigger matchers, the save endpoint, the
rate limiter / cooldown tracker, the execution runners and the
coordinator glue, together with theorems settling the documented
behavioural claims against the embedded code.

Conventions of the embedding:
* JavaScript strings are modelled by Lean `String`; `toLowerCase`,
  `startsWith`, `includes` are modelled at the `List Char` level by
  `jsToLower`, `jsStartsWith`, `jsIncludes` (ASCII case folding, which
  is the fragment the repository's triggers exercise).
* Redis hashes and keys are modelled by association lists; `SETEX`
  keys carry their absolute expiry instant, and `EXISTS` respects it.
* Falsy-or-absent JS string fields are modelled by `""`.
-/

namespace SSyntax

/-- Model of `s.toLowerCase()` on the character list (ASCII folding, as `Char.toLower`). -/
def jsToLower (s : String) : String :=
  String.mk (s.data.map Char.toLower)

/-- Model of `s.startsWith(pre)` at the character level. -/
def jsStartsWith (s pre : String) : Bool :=
  pre.data.isPrefixOf s.data

/-- Substring search on character lists: does `needle` occur inside the list? -/
def containsSub (needle : List Char) : List Char → Bool
  | [] => needle.isEmpty
  | c :: rest => needle.isPrefixOf (c :: rest) || containsSub needle rest

/-- Model of `s.includes(sub)` at the character level. -/
def jsIncludes (s sub : String) : Bool :=
  containsSub sub.data s.data

/--
Well-formedness scan for JavaScript regular-expression patterns
(`new RegExp(pat)` succeeds iff the scan accepts), covering the core
constructs the dashboard's triggers use: literals, escapes `\c`,
character classes `[...]`, groups `(...)` (plus `(?:`/`(?=`/`(?!`
prefixes), alternation `|`, and the quantifiers `*` `+` `?` which
require a preceding atom.  Arguments: fuel (strictly larger than the
number of remaining characters, so it never runs out), remaining
characters, open-group depth, whether the previous token was a
quantifiable atom, whether the scan is inside a character class.
Rejects exactly the syntax errors this fragment can exhibit: an
unterminated group or class, an unmatched `)`, a dangling backslash,
and a quantifier with nothing to repeat.
-/
def jsRegexScan : Nat → List Char → Nat → Bool → Bool → Bool
  | 0, _, _, _, _ => false
  | _ + 1, [], depth, _prev, inClass => depth == 0 && !inClass
  | fuel + 1, c :: rest, depth, prev, inClass =>
    if c == '\\' then
      match rest with
      | [] => false
      | _ :: rs => jsRegexScan fuel rs depth true inClass
    else if inClass then
      if c == ']' then jsRegexScan fuel rest depth true false
      else jsRegexScan fuel rest depth prev true
    else if c == '[' then jsRegexScan fuel rest depth prev true
    else if c == '(' then
      match rest with
      | '?' :: ':' :: rs => jsRegexScan fuel rs (depth + 1) false false
      | '?' :: '=' :: rs => jsRegexScan fuel rs (depth + 1) false false
      | '?' :: '!' :: rs => jsRegexScan fuel rs (depth + 1) false false
      | _ => jsRegexScan fuel rest (depth + 1) false false
    else if c == ')' then
      depth != 0 && jsRegexScan fuel rest (depth - 1) true false
    else if c == '*' || c == '+' || c == '?' then
      prev && jsRegexScan fuel rest depth false false
    else if c == '|' then jsRegexScan fuel rest depth false false
    else jsRegexScan fuel rest depth true false

/-- Whether `new RegExp(pat)` compiles without a `SyntaxError`. -/
def jsRegexCompiles (pat : String) : Bool :=
  jsRegexScan (pat.data.length + 1) pat.data 0 false false

/-- Characters with a special meaning in a JS regex pattern. -/
def jsRegexMeta (c : Char) : Bool :=
  c == '(' || c == ')' || c == '[' || c == ']' || c == '{' || c == '}' ||
  c == '*' || c == '+' || c == '?' || c == '|' || c == '^' || c == '$' ||
  c == '\\' || c == '.'

/--
Model of `new RegExp(pat, 'i').test(content)` for the metacharacter-free
fragment: a pattern made only of literal characters matches iff it
occurs, case-insensitively, inside `content` (this is the JS semantics
for such patterns; patterns with metacharacters are outside the
modelled test fragment and yield `false` here — no theorem below
depends on the test result of a metacharacter pattern).
-/
def jsRegexTest (pat content : String) : Bool :=
  pat.data.all (fun c => !jsRegexMeta c) &&
    jsIncludes (jsToLower content) (jsToLower pat)

/--
A stored custom command, as the dashboard JSON-serialises it into the
`commands:{guildId}` redis hash: string-tagged trigger type, trigger
text, optional per-command prefix (`""` = absent/falsy), language tag
and code.  Role/channel restriction lists are omitted: no claim below
concerns them.
-/
structure Command where
  id : String
  type : String
  trigger : String
  pfx : String
  lang : String
  code : String
deriving Repr, DecidableEq

/--
Trigger evaluation of the `messageCreate` handler in
`src/unnamed/part_001` (lines 82–97): per command it computes
`prefix = cmd.prefix || "!"` and dispatches on `cmd.type`; the
`Regex (Case Insensitive)` branch constructs `new RegExp(cmd.trigger, 'i')`
with no prior validation, so a non-compiling pattern throws — modelled
as `Except.error`.
-/
def engineBTriggered (cmd : Command) (content : String) : Except String Bool :=
  let pfx := if cmd.pfx == "" then "!" else cmd.pfx
  if cmd.type == "Command (prefix)" then
    .ok (jsStartsWith content (pfx ++ cmd.trigger))
  else if cmd.type == "Starts with" then
    .ok (jsStartsWith (jsToLower content) (jsToLower cmd.trigger))
  else if cmd.type == "Contains" then
    .ok (jsIncludes (jsToLower content) (jsToLower cmd.trigger))
  else if cmd.type == "Regex (Case Insensitive)" then
    if jsRegexCompiles cmd.trigger then .ok (jsRegexTest cmd.trigger content)
    else .error "SyntaxError: invalid regular expression"
  else
    .ok false

/--
Trigger evaluation of the `messageCreate` handler in
`src/unnamed/part_000` (second document, lines 123–131): it lowercases
both `cmd.trigger` and `message.content`, then dispatches on
`cmd.type` with the guild-level prefix (`prefix:{guildId}` or `"!"`)
prepended in the prefix branch.
-/
def engineAMatch (guildPfx : String) (cmd : Command) (content : String) : Bool :=
  let trigger := jsToLower cmd.trigger
  let c := jsToLower content
  if cmd.type == "Command (prefix)" then jsStartsWith c (guildPfx ++ trigger)
  else if cmd.type == "Exact Match" then c == trigger
  else if cmd.type == "Starts with" then jsStartsWith c trigger
  else false

/-- The effective prefix exactly as the specification words it: the
command's own prefix when set, otherwise the guild's configured prefix,
otherwise the hard-coded default.  Spec-side definition, used only to
compare the spec's claim against the embedded handlers. -/
def specEffectivePfx (own : String) (guildPfx : Option String) (dflt : String) : String :=
  if own ≠ "" then own else guildPfx.getD dflt

/-- Prefix-mode matching as the specification words it (case-sensitive
`content.startsWith(effectivePrefix + triggerText)`).  Spec-side
definition for comparison with the embedded handlers. -/
def specPrefixMatch (content own : String) (guildPfx : Option String) (trigger : String) : Bool :=
  jsStartsWith content (specEffectivePfx own guildPfx "!" ++ trigger)

/-- One guild's `commands:{guildId}` redis hash: field (command id) to
stored command. -/
abbrev CmdStore := List (String × Command)

/-- Redis `HSET hash field value` — overwrite the field. -/
def hset (store : CmdStore) (field : String) (v : Command) : CmdStore :=
  (field, v) :: store.filter (fun p => p.1 ≠ field)

/-- Redis `HGET hash field`. -/
def hget (store : CmdStore) (field : String) : Option Command :=
  (store.find? (fun p => p.1 == field)).map (fun p => p.2)

/-- The `POST /api/save-command` route of `src/unnamed/part_001`
(lines 71–75): it writes `command` into the guild's hash under
`command.id` and answers 200 — there is no inspection of the command
at all (no regex validation, no empty-trigger check). -/
def saveCommandB (store : CmdStore) (cmd : Command) : CmdStore × Nat :=
  (hset store cmd.id cmd, 200)

/-- The per-command cooldown keys `cooldown:{commandId}:{userId}` from
`src/unnamed/part_002`: each key carries the absolute instant at which
its `SETEX` time-to-live ends. -/
abbrev CooldownStore := List ((String × String) × Nat)

/-- Key lookup in the cooldown store. -/
def cooldownLookup (st : CooldownStore) (k : String × String) : Option Nat :=
  (st.find? (fun e => e.1 == k)).map (fun e => e.2)

/-- Function `setCooldown` of `src/unnamed/part_002` (lines 51–53):
`SETEX cooldown:{commandId}:{userId} cooldown '1'` — (re)creates the key
with a time-to-live of `cooldown`, i.e. expiry instant `now + cooldown`. -/
def setCooldown (now cooldown : Nat) (st : CooldownStore) (commandId userId : String) : CooldownStore :=
  ((commandId, userId), now + cooldown) :: st.filter (fun e => e.1 ≠ (commandId, userId))

/-- Function `isOnCooldown` of `src/unnamed/part_002` (lines 55–57):
`EXISTS cooldown:{commandId}:{userId}` — true iff the key exists and its
time-to-live has not elapsed. -/
def isOnCooldown (now : Nat) (st : CooldownStore) (commandId userId : String) : Bool :=
  match cooldownLookup st (commandId, userId) with
  | some expiry => now < expiry
  | none => false

/-- Modelled from the spec: no code under `src/` composes the source's
`isOnCooldown`/`setCooldown` into an admission operation (the engine
callers of the safety module are not in the repository snapshot), so
`admitCooldown` follows §4.2 of the specification verbatim — return false and
leave state unchanged while the key is on cooldown, otherwise record
the firing and return true — built on the two source primitives above. -/
def admitCooldown (now cooldown : Nat) (st : CooldownStore) (commandId userId : String) : Bool × CooldownStore :=
  if isOnCooldown now st commandId userId then (false, st)
  else (true, setCooldown now cooldown st commandId userId)

/-- One redis counter key as `checkRateLimit` sees it: current value and
optional absolute expiry instant (`PEXPIRE` target). -/
structure RLEntry where
  count : Nat
  expiresAt : Option Nat
deriving Repr, DecidableEq

/-- The live view of a counter key at instant `now`: an expired key is
absent; a key with no time-to-live persists. -/
def liveEntry (now : Nat) (e : Option RLEntry) : Option RLEntry :=
  match e with
  | none => none
  | some en =>
    match en.expiresAt with
    | some expiry => if now < expiry then some en else none
    | none => some en

/-- Redis `INCR`: create the key at 1 (with no time-to-live) when absent
or expired, else increment preserving the time-to-live. -/
def redisIncr (now : Nat) (e : Option RLEntry) : RLEntry :=
  match liveEntry now e with
  | none => ⟨1, none⟩
  | some en => ⟨en.count + 1, en.expiresAt⟩

/-- The live count of a counter key (0 when absent or expired). -/
def liveCount (now : Nat) (e : Option RLEntry) : Nat :=
  ((liveEntry now e).map RLEntry.count).getD 0

/-- The live expiry of a counter key. -/
def liveExpiry (now : Nat) (e : Option RLEntry) : Option Nat :=
  (liveEntry now e).bind RLEntry.expiresAt

/-- The `RATE_LIMIT` configuration `src/unnamed/part_002` imports (the
config module itself is not in the snapshot, so the four ceilings are
parameters). -/
structure RateLimits where
  userMax : Nat
  userWindow : Nat
  guildMax : Nat
  guildWindow : Nat

/-- The two counter keys `ratelimit:user:{userId}` and
`ratelimit:guild:{guildId}` relevant to one call. -/
structure RLState where
  user : Option RLEntry
  guild : Option RLEntry
deriving Repr, DecidableEq

/-- Function `checkRateLimit` of `src/unnamed/part_002` (lines 37–49): `INCR`
both keys unconditionally, `PEXPIRE` each key to its window iff its
fresh count is exactly 1, and allow iff both counts are within their
ceilings.  The increments happen before — and regardless of — the
admission verdict. -/
def checkRateLimit (now : Nat) (lim : RateLimits) (st : RLState) : Bool × RLState :=
  let u := redisIncr now st.user
  let g := redisIncr now st.guild
  let u := if u.count == 1 then { u with expiresAt := some (now + lim.userWindow) } else u
  let g := if g.count == 1 then { g with expiresAt := some (now + lim.guildWindow) } else g
  (decide (u.count ≤ lim.userMax) && decide (g.count ≤ lim.guildMax), ⟨some u, some g⟩)

/-- A command record as `src/index.js` stores it (name-keyed dispatch). -/
structure DashCommand where
  id : String
  name : String
  code : String
deriving Repr, DecidableEq

/-- The store read failing (redis unavailable / rejected read). -/
inductive StoreErr where
  | unavailable
deriving Repr, DecidableEq

/-- One `guildCache` entry of `src/index.js`. -/
structure CachedCommands where
  timestamp : Nat
  data : List DashCommand
deriving Repr, DecidableEq

/-- Function `loadGuildCommands` of `src/index.js` (lines 392–419).  Inputs: the
current instant, the guild's cache entry, and the outcome of the
`HGETALL commands:{guildId}` read, whose values are modelled
post-`JSON.parse` (`none` = a value whose parse threw, which the
source maps to `null` and filters out).  A cache entry younger than
five minutes is returned as-is; otherwise the read is consulted, and
the surrounding `try`/`catch` turns a failed read into the empty list
(cache untouched) instead of an exception — hence the total return
type. -/
def loadGuildCommands (now : Nat) (cache : Option CachedCommands)
    (readResult : Except StoreErr (List (Option DashCommand))) :
    List DashCommand × Option CachedCommands :=
  match cache with
  | some c =>
    if now - c.timestamp < 5 * 60 * 1000 then (c.data, some c)
    else
      match readResult with
      | .error _ => ([], some c)
      | .ok vals =>
        let parsed := vals.filterMap id
        (parsed, some ⟨now, parsed⟩)
  | none =>
    match readResult with
    | .error _ => ([], none)
    | .ok vals =>
      let parsed := vals.filterMap id
      (parsed, some ⟨now, parsed⟩)

/-- An inbound chat message as the handlers see it. -/
structure Msg where
  authorBot : Bool
  inGuild : Bool
  content : String
deriving Repr, DecidableEq

/-- What the `src/index.js` `messageCreate` handler did with a message. -/
inductive DashAction where
  | ignored
  | noPrefixReturn
  | noMatch
  | executed (c : DashCommand)
deriving Repr, DecidableEq

/-- The `messageCreate` handler of `src/index.js` (lines 300–341):
ignore bot/DM messages, return unless the content starts with the
hard-coded `"!"`, else take the first whitespace token after the
prefix, lowercase it, and execute the first stored command of that
name (`find`); otherwise nothing fires. -/
def indexMessageCreate (m : Msg) (commands : List DashCommand) : DashAction :=
  if m.authorBot || !m.inGuild then .ignored
  else if !(jsStartsWith m.content "!") then .noPrefixReturn
  else
    let commandName := jsToLower (String.mk (((m.content.data.drop 1).dropWhile (· == ' ')).takeWhile (· ≠ ' ')))
    match commands.find? (fun c => c.name == commandName) with
    | some c => .executed c
    | none => .noMatch

/-- The `message.channel.send` wrapper installed by `createSandbox` in
`src/index.js` (lines 363–369): content longer than 2000 characters is
replaced by its first 1997 characters followed by `"..."` before
delivery (the `typeof` coercion branch is outside the modelled string
inputs). -/
def sandboxChannelSend (content : String) : String :=
  if content.length > 2000 then String.mk (content.data.take 1997 ++ "...".data)
  else content

/-- How one sandboxed snippet behaves intrinsically: it either halts by
itself after `ms` milliseconds producing `out`, or it loops forever. -/
inductive SnippetBehavior where
  | halts (ms : Nat) (out : String)
  | loops
deriving Repr, DecidableEq

/-- Outcome of a `vm2` `VM` run with a `timeout` option. -/
inductive VMResult where
  | ok (out : String)
  | timedOut
deriving Repr, DecidableEq

/-- A `vm2` `VM` with the `timeout` option — the `VM` construction sites
only: 1000 ms in `src/unnamed/part_000`, 2000 ms in
`src/unnamed/part_001`, 3000 ms in `src/bot.js`.  On a `VM`, a run
exceeding the budget is terminated and surfaces as the "Script
execution timed out" error.  (The `NodeVM` of `src/index.js` is *not*
modelled here — see `nodeVMRun`.) -/
def vmRun (timeoutMs : Nat) (b : SnippetBehavior) : VMResult :=
  match b with
  | .halts ms out => if ms ≤ timeoutMs then .ok out else .timedOut
  | .loops => .timedOut

/-- The `NodeVM` built by `createSandbox` in `src/index.js` (lines
352–389).  Its options include `timeout: 2000`, but vm2's `NodeVM` does
not support the `timeout` option (it is honoured by `VM` only), so the
option is silently ignored: `sandbox.run` returns only when the snippet
itself halts, and a looping snippet hangs the run (`none`) — no
timed-out error is ever produced at this site. -/
def nodeVMRun (b : SnippetBehavior) : Option (Nat × String) :=
  match b with
  | .halts ms out => some (ms, out)
  | .loops => none

/-- Function `runPython` of `src/unnamed/part_001` (lines 26–34):
`exec('python3 -c "..."', cb)` with **no** `timeout` option and no kill —
the promise resolves only when the child exits, so a snippet that never
halts never resolves (`none`) and the child process is left running.
A halting snippet resolves with its completion time and output. -/
def runPython (b : SnippetBehavior) : Option (Nat × String) :=
  match b with
  | .halts ms out => some (ms, out)
  | .loops => none

/-- Function `runGo` of `src/unnamed/part_001` (lines 36–46): `exec('go run …')`
with no `timeout` option and no kill, same shape as `runPython`. -/
def runGo (b : SnippetBehavior) : Option (Nat × String) :=
  match b with
  | .halts ms out => some (ms, out)
  | .loops => none

/-- Modelled from the spec: the `killswitch` module required by
`src/unnamed/part_000` (first document) is not in the repository
snapshot; per the claim's own wording it keeps one global `enabled`
flag, `disableGlobally` clears it and `isEnabled` reads it. -/
structure KState where
  enabled : Bool
deriving Repr, DecidableEq

/-- Modelled from the spec: `isEnabled` of the absent killswitch module. -/
def isEnabled (s : KState) : Bool :=
  s.enabled

/-- Modelled from the spec: `disableGlobally` of the absent killswitch
module clears the global flag. -/
def disableGlobally (_s : KState) : KState :=
  ⟨false⟩

/-- What the `src/unnamed/part_000` (first document) `messageCreate`
handler did with a message. -/
inductive KOutcome where
  | ignored
  | disabledReturn
  | emergencyStopped
  | rateLimitDenied
  | handled
deriving Repr, DecidableEq

/-- The `messageCreate` handler of `src/unnamed/part_000` (first
document, lines 20–35): ignore bot/DM messages; return at once while
the global flag is off; on exactly `"!emergency stop"` disable globally
and return; otherwise consult `checkRateLimit` (the source's safety
module, embedded above) and, when admitted, hand the message to the
command handler (`handled`). -/
def botMessageCreate (now : Nat) (lim : RateLimits) (ks : KState) (rl : RLState) (m : Msg) :
    KState × RLState × KOutcome :=
  if m.authorBot || !m.inGuild then (ks, rl, .ignored)
  else if !(isEnabled ks) then (ks, rl, .disabledReturn)
  else if m.content == "!emergency stop" then (disableGlobally ks, rl, .emergencyStopped)
  else
    let r := checkRateLimit now lim rl
    if !r.1 then (ks, r.2, .rateLimitDenied)
    else (ks, r.2, .handled)

/-- A stored command whose regex trigger `"("` does not compile
(`new RegExp("(")` raises `SyntaxError: Unterminated group`). -/
def badRegexCmd : Command :=
  ⟨"cmd1", "Regex (Case Insensitive)", "(", "", "JavaScript", "1"⟩

/-- An exact-match command with a capitalised trigger. -/
def exactCmdHi : Command :=
  ⟨"c3cmd", "Exact Match", "Hi", "", "JavaScript", ""⟩

/-- A prefix-mode command with no per-command prefix set. -/
def prefixCmdT : Command :=
  ⟨"c5cmd", "Command (prefix)", "t", "", "JavaScript", ""⟩

/-- A starts-with command whose trigger text is empty. -/
def emptyTriggerCmd : Command :=
  ⟨"c6cmd", "Starts with", "", "", "JavaScript", ""⟩

/-- Concrete rate-limit ceilings (the spec's recommended defaults). -/
def demoLim : RateLimits :=
  ⟨10, 60000, 100, 60000⟩

/-- A non-bot guild message carrying the emergency-stop text. -/
def stopMsg : Msg :=
  ⟨false, true, "!emergency stop"⟩

/-- Searching an empty needle always succeeds. -/
theorem containsSub_nil (l : List Char) : containsSub [] l = true := by
  cases l <;> simp [containsSub, List.isPrefixOf]

/-- A just-set cooldown key is found with its fresh expiry. -/
theorem cooldownLookup_setCooldown (now cd : Nat) (st : CooldownStore) (cid uid : String) :
    cooldownLookup (setCooldown now cd st cid uid) (cid, uid) = some (now + cd) := by
  simp [cooldownLookup, setCooldown]

/-- C1, counterexample.  The claim says every language variant
terminates within `timeoutMs + ε` on an infinite loop and forcibly
kills the execution unit.  The Python and Go runners
(`src/unnamed/part_001`) call `exec` with no timeout option and never
kill the child: on a looping snippet their promise never resolves
(`none`) and the subprocess is left running — there is no result at
all, let alone a `TimedOut` one. -/
theorem c1_counterexample :
    runPython SnippetBehavior.loops = none ∧ runGo SnippetBehavior.loops = none :=
  ⟨rfl, rfl⟩

/-- C1, amended.  Only the `vm2` `VM` sites enforce a wall-clock
timeout (a `VM` with any configured `timeout` turns an infinite loop
into a timeout error).  Every other execution unit hangs on a looping
snippet: the `NodeVM` of `src/index.js` silently ignores its
`timeout: 2000` option, and the Python and Go subprocess variants call
`exec` with no timeout and never kill the child — none of them ever
yields a result, and the unit is left running. -/
theorem c1_amended :
    (∀ timeoutMs : Nat, vmRun timeoutMs SnippetBehavior.loops = VMResult.timedOut) ∧
    nodeVMRun SnippetBehavior.loops = none ∧
    runPython SnippetBehavior.loops = none ∧
    runGo SnippetBehavior.loops = none :=
  ⟨fun _ => rfl, rfl, rfl, rfl⟩

/-- C2, counterexample.  The pattern `"("` does not compile, yet the
save route stores the command and answers 200, and the match-time
handler then throws (`Except.error`) when it reaches the regex branch
— nothing validated the pattern first. -/
theorem c2_counterexample :
    jsRegexCompiles "(" = false ∧
    saveCommandB [] badRegexCmd = ([("cmd1", badRegexCmd)], 200) ∧
    engineBTriggered badRegexCmd "hello" = .error "SyntaxError: invalid regular expression" :=
  ⟨rfl, rfl, rfl⟩

/-- C2, amended.  The save route performs no validation whatsoever: for
every command — including one whose regex trigger does not compile — it
stores the record under its id and answers 200; and the match-time
handler compiles the pattern unvalidated, so a non-compiling pattern
raises an error at match time. -/
theorem c2_amended :
    ∀ (store : CmdStore) (cmd : Command) (content : String),
      (saveCommandB store cmd).2 = 200 ∧
      hget (saveCommandB store cmd).1 cmd.id = some cmd ∧
      (cmd.type = "Regex (Case Insensitive)" → jsRegexCompiles cmd.trigger = false →
        engineBTriggered cmd content = .error "SyntaxError: invalid regular expression") := by
  intro store cmd content
  refine ⟨rfl, ?_, ?_⟩
  · simp [hget, saveCommandB, hset]
  · intro ht hc
    obtain ⟨i, ty, tr, px, lg, cd⟩ := cmd
    simp only at ht hc
    subst ht
    simp [engineBTriggered, hc]

/-- C2, witness for the amended theorem at the concrete bad command. -/
theorem c2_amended_witness :
    (saveCommandB [] badRegexCmd).2 = 200 ∧
    hget (saveCommandB [] badRegexCmd).1 "cmd1" = some badRegexCmd ∧
    engineBTriggered badRegexCmd "hi" = .error "SyntaxError: invalid regular expression" :=
  ⟨(c2_amended [] badRegexCmd "hi").1, (c2_amended [] badRegexCmd "hi").2.1,
    (c2_amended [] badRegexCmd "hi").2.2 rfl rfl⟩

/-- C3, counterexample.  The handler of `src/unnamed/part_000`
lowercases both sides before comparing, so the exact-match command with
trigger `"Hi"` fires on the message `"hi"` although the contents differ
— the comparison is not case-sensitive. -/
theorem c3_counterexample :
    engineAMatch "!" exactCmdHi "hi" = true ∧ ("hi" : String) ≠ "Hi" :=
  ⟨rfl, by decide⟩

/-- C3, amended.  For exact-match commands the handler fires iff the
lowercased content equals the lowercased trigger text — a
case-insensitive comparison (the empty content still fires only on the
empty trigger). -/
theorem c3_amended :
    ∀ (guildPfx : String) (cmd : Command) (content : String),
      cmd.type = "Exact Match" →
      (engineAMatch guildPfx cmd content = true ↔ jsToLower content = jsToLower cmd.trigger) := by
  intro guildPfx cmd content ht
  obtain ⟨i, ty, tr, px, lg, cd⟩ := cmd
  simp only at ht
  subst ht
  simp [engineAMatch]

/-- C3, witness for the amended theorem at the concrete command. -/
theorem c3_amended_witness :
    engineAMatch "!" exactCmdHi "hi" = true ↔ jsToLower "hi" = jsToLower "Hi" :=
  c3_amended "!" exactCmdHi "hi" rfl

/-- C4.  Cooldown admission (the spec's `admitCooldown`, composed from the
source's `isOnCooldown`/`setCooldown`) is monotonic: a denied call
leaves the store untouched; an admitted call installs the key with
expiry `now + cooldown` (the `SETEX` encoding of the firing instant);
and two calls on the same key within `cooldown` of each other are
admitted at most once. -/
theorem c4_admit_monotone :
    ∀ (st : CooldownStore) (cid uid : String) (cd t1 t2 : Nat),
      ((admitCooldown t1 cd st cid uid).1 = false → (admitCooldown t1 cd st cid uid).2 = st) ∧
      ((admitCooldown t1 cd st cid uid).1 = true →
        cooldownLookup (admitCooldown t1 cd st cid uid).2 (cid, uid) = some (t1 + cd)) ∧
      (t1 ≤ t2 → t2 < t1 + cd →
        ¬((admitCooldown t1 cd st cid uid).1 = true ∧
          (admitCooldown t2 cd (admitCooldown t1 cd st cid uid).2 cid uid).1 = true)) := by
  intro st cid uid cd t1 t2
  by_cases h : isOnCooldown t1 st cid uid
  · simp [admitCooldown, h]
  · have ha : admitCooldown t1 cd st cid uid = (true, setCooldown t1 cd st cid uid) := by
      simp [admitCooldown, h]
    refine ⟨by simp [ha], by simp [ha, cooldownLookup_setCooldown], ?_⟩
    intro _ h2 hboth
    have hb : isOnCooldown t2 (setCooldown t1 cd st cid uid) cid uid = true := by
      simp [isOnCooldown, cooldownLookup_setCooldown]
      exact h2
    rw [ha] at hboth
    have hsec := hboth.2
    simp [admitCooldown, hb] at hsec

/-- C4, witness at cooldown 5 with calls at instants 0 and 3. -/
theorem c4_witness :
    cooldownLookup (admitCooldown 0 5 [] "c" "u").2 ("c", "u") = some 5 ∧
    ¬((admitCooldown 0 5 [] "c" "u").1 = true ∧
      (admitCooldown 3 5 (admitCooldown 0 5 [] "c" "u").2 "c" "u").1 = true) :=
  ⟨(c4_admit_monotone [] "c" "u" 5 0 3).2.1 (by decide),
    (c4_admit_monotone [] "c" "u" 5 0 3).2.2 (by decide) (by decide)⟩

/-- C5, counterexample.  The claim's effective prefix falls back to the
guild's configured prefix (here `"?"`), under which the message `"?t"`
should fire the command with trigger `"t"` and no own prefix; the
`src/unnamed/part_001` handler instead uses `cmd.prefix || "!"` — it
never consults the guild prefix — and does not fire. -/
theorem c5_counterexample :
    specPrefixMatch "?t" "" (some "?") "t" = true ∧
    engineBTriggered prefixCmdT "?t" = .ok false :=
  ⟨rfl, rfl⟩

/-- C5, amended.  In `src/unnamed/part_001` a prefix-mode command fires
iff the content starts, case-sensitively, with the command's own prefix
(hard-coded `"!"` when unset) followed by the trigger — the guild
prefix plays no role; the duplicate handler in `src/unnamed/part_000`
instead uses the guild's configured prefix (default `"!"`), ignores the
per-command prefix, and lowercases content and trigger (but not the
prefix). -/
theorem c5_amended :
    ∀ (cmd : Command) (content guildPfx : String),
      cmd.type = "Command (prefix)" →
      (engineBTriggered cmd content =
        .ok (jsStartsWith content ((if cmd.pfx == "" then "!" else cmd.pfx) ++ cmd.trigger)) ∧
       engineAMatch guildPfx cmd content =
        jsStartsWith (jsToLower content) (guildPfx ++ jsToLower cmd.trigger)) := by
  intro cmd content guildPfx ht
  obtain ⟨i, ty, tr, px, lg, cd⟩ := cmd
  simp only at ht
  subst ht
  exact ⟨rfl, rfl⟩

/-- C5, witness for the amended theorem at the concrete command. -/
theorem c5_amended_witness :
    engineBTriggered prefixCmdT "?t" = .ok (jsStartsWith "?t" ("!" ++ "t")) ∧
    engineAMatch "?" prefixCmdT "?t" = jsStartsWith (jsToLower "?t") ("?" ++ jsToLower "t") :=
  c5_amended prefixCmdT "?t" "?" rfl

/-- C6, counterexample.  A starts-with command with empty trigger text
fires on the message `"hello"` (indeed on every message): the empty
trigger is not treated as malformed, not logged and not skipped. -/
theorem c6_counterexample :
    emptyTriggerCmd.trigger = "" ∧ engineBTriggered emptyTriggerCmd "hello" = .ok true :=
  ⟨rfl, rfl⟩

/-- C6, amended.  A command with empty trigger text receives no special
treatment in `src/unnamed/part_001`: the starts-with, contains and
regex modes then fire on every message, and the prefix mode fires on
any message starting with the effective prefix alone. -/
theorem c6_amended :
    ∀ (cmd : Command) (content : String),
      cmd.trigger = "" →
      engineBTriggered cmd content = .ok (
        if cmd.type == "Command (prefix)" then
          jsStartsWith content (if cmd.pfx == "" then "!" else cmd.pfx)
        else if cmd.type == "Starts with" then true
        else if cmd.type == "Contains" then true
        else if cmd.type == "Regex (Case Insensitive)" then true
        else false) := by
  intro cmd content ht
  obtain ⟨i, ty, tr, px, lg, cd⟩ := cmd
  simp only at ht
  subst ht
  simp only [engineBTriggered, show jsRegexCompiles "" = true from rfl]
  split_ifs <;>
    first
      | rfl
      | rw [String.append_empty]
      | simp [jsRegexTest, jsIncludes, jsStartsWith, jsToLower, containsSub_nil,
          List.isPrefixOf, show ("" : String).data = [] from rfl]

/-- C6, witness for the amended theorem at the concrete command. -/
theorem c6_amended_witness :
    engineBTriggered emptyTriggerCmd "anything at all" = .ok true :=
  c6_amended emptyTriggerCmd "anything at all" rfl

/-- C7.  When the CommandStore read fails, `loadGuildCommands` returns
the empty command list as an ordinary value (on a cold cache and on a
stale cache alike — the `catch` swallows the error, hence the total
return type and no exception toward the gateway), and the
`messageCreate` handler of `src/index.js` then executes nothing for the
message. -/
theorem c7_store_unavailable :
    ∀ (now : Nat) (err : StoreErr) (m : Msg) (c : CachedCommands),
      loadGuildCommands now none (.error err) = ([], none) ∧
      (5 * 60 * 1000 ≤ now - c.timestamp →
        (loadGuildCommands now (some c) (.error err)).1 = []) ∧
      (∀ cmd : DashCommand, indexMessageCreate m [] ≠ DashAction.executed cmd) := by
  intro now err m c
  refine ⟨rfl, ?_, ?_⟩
  · intro hstale
    have hnot : ¬(now - c.timestamp < 5 * 60 * 1000) := by omega
    simp [loadGuildCommands, hnot]
  · intro cmd
    simp only [indexMessageCreate]
    split_ifs <;> simp [List.find?]

/-- C7, witness: a ten-minute-old cache entry plus a failed read yields
zero commands. -/
theorem c7_witness :
    (loadGuildCommands 600000 (some ⟨0, [⟨"i", "n", "c"⟩]⟩) (.error StoreErr.unavailable)).1 = [] :=
  (c7_store_unavailable 600000 StoreErr.unavailable ⟨false, true, "!x"⟩ ⟨0, [⟨"i", "n", "c"⟩]⟩).2.1
    (by decide)

/-- C8.  The sandbox's send wrapper truncates: content longer than the
2000-character output cap is delivered with length exactly 2000, is
observably different from a silent prefix-drop of the original (it is
not the original), and carries the `"..."` truncation marker as a
suffix. -/
theorem c8_truncation :
    ∀ content : String, 2000 < content.length →
      (sandboxChannelSend content).length = 2000 ∧
      sandboxChannelSend content ≠ content ∧
      "...".data <:+ (sandboxChannelSend content).data := by
  intro content h
  obtain ⟨l⟩ := content
  have hlen : 2000 < l.length := h
  have hgt : (String.mk l).length > 2000 := hlen
  have hif : sandboxChannelSend ⟨l⟩ = String.mk (l.take 1997 ++ "...".data) := by
    unfold sandboxChannelSend
    rw [if_pos hgt]
  have hL : (sandboxChannelSend ⟨l⟩).length = 2000 := by
    rw [hif]
    show (l.take 1997 ++ "...".data).length = 2000
    simp [List.length_append, List.length_take]
    omega
  refine ⟨hL, ?_, ?_⟩
  · intro heq
    rw [heq] at hL
    have : (String.mk l).length = l.length := rfl
    omega
  · rw [hif]
    exact List.suffix_append _ _

/-- C8, witness at a concrete 2001-character output. -/
theorem c8_witness :
    (sandboxChannelSend (String.mk (List.replicate 2001 'a'))).length = 2000 ∧
    sandboxChannelSend (String.mk (List.replicate 2001 'a')) ≠ String.mk (List.replicate 2001 'a') ∧
    "...".data <:+ (sandboxChannelSend (String.mk (List.replicate 2001 'a'))).data :=
  c8_truncation (String.mk (List.replicate 2001 'a'))
    (by show 2000 < (List.replicate 2001 'a').length; rw [List.length_replicate]; omega)

/-- C9.  One `checkRateLimit` call takes both counters from their live
values `u` and `g` to `u + 1` and `g + 1` — unconditionally, so a call
whose verdict is false has consumed quota from both windows all the
same (the resulting state is given by the same equation whatever the
verdict) — and a window expiry is (re)assigned exactly when the
counter's live value was 0, i.e. on the first increment of a window;
otherwise the existing expiry is carried over.  The verdict is true iff
both post-increment counts are within their ceilings. -/
theorem c9_checkRateLimit :
    ∀ (now : Nat) (lim : RateLimits) (st : RLState),
      checkRateLimit now lim st =
        (decide (liveCount now st.user + 1 ≤ lim.userMax) &&
           decide (liveCount now st.guild + 1 ≤ lim.guildMax),
         ⟨some ⟨liveCount now st.user + 1,
            if liveCount now st.user = 0 then some (now + lim.userWindow)
            else liveExpiry now st.user⟩,
          some ⟨liveCount now st.guild + 1,
            if liveCount now st.guild = 0 then some (now + lim.guildWindow)
            else liveExpiry now st.guild⟩⟩) := by
  intro now lim st
  have key : ∀ (window : Nat) (e : Option RLEntry),
      (if (redisIncr now e).count == 1
        then { redisIncr now e with expiresAt := some (now + window) }
        else redisIncr now e) =
      RLEntry.mk (liveCount now e + 1)
        (if liveCount now e = 0 then some (now + window) else liveExpiry now e) := by
    intro window e
    cases e with
    | none => simp [redisIncr, liveEntry, liveCount, liveExpiry]
    | some en =>
      cases hx : en.expiresAt with
      | none =>
        by_cases hc : en.count = 0 <;>
          simp [redisIncr, liveEntry, liveCount, liveExpiry, hx, hc]
      | some expiry =>
        by_cases hlt : now < expiry
        · by_cases hc : en.count = 0 <;>
            simp [redisIncr, liveEntry, liveCount, liveExpiry, hx, hlt, hc]
        · simp [redisIncr, liveEntry, liveCount, liveExpiry, hx, hlt]
  simp only [checkRateLimit, key lim.userWindow st.user, key lim.guildWindow st.guild]

/-- C10.  On a non-bot guild message whose content is exactly
`"!emergency stop"` while the system is enabled, the handler clears the
global flag (rate-limit state untouched); from then on every message is
answered from the killswitch gate: the flag stays false, the rate-limit
state is never touched (so `checkRateLimit` was not consulted) and the
outcome is `ignored` or `disabledReturn` — never rate-limit denial or
command handling — there being no re-enable path in the handler. -/
theorem c10_killswitch :
    ∀ (now : Nat) (lim : RateLimits) (ks : KState) (rl : RLState) (m : Msg),
      m.authorBot = false → m.inGuild = true → ks.enabled = true →
      m.content = "!emergency stop" →
      (botMessageCreate now lim ks rl m).1.enabled = false ∧
      (botMessageCreate now lim ks rl m).2.2 = KOutcome.emergencyStopped ∧
      (botMessageCreate now lim ks rl m).2.1 = rl ∧
      (∀ (now2 : Nat) (lim2 : RateLimits) (rl2 : RLState) (m2 : Msg),
        (botMessageCreate now2 lim2 (botMessageCreate now lim ks rl m).1 rl2 m2).1.enabled = false ∧
        (botMessageCreate now2 lim2 (botMessageCreate now lim ks rl m).1 rl2 m2).2.1 = rl2 ∧
        ((botMessageCreate now2 lim2 (botMessageCreate now lim ks rl m).1 rl2 m2).2.2 = KOutcome.ignored ∨
         (botMessageCreate now2 lim2 (botMessageCreate now lim ks rl m).1 rl2 m2).2.2 = KOutcome.disabledReturn)) := by
  intro now lim ks rl m hbot hguild hen hcontent
  have hb : botMessageCreate now lim ks rl m = (⟨false⟩, rl, .emergencyStopped) := by
    simp [botMessageCreate, isEnabled, disableGlobally, hbot, hguild, hen, hcontent]
  rw [hb]
  refine ⟨rfl, rfl, rfl, ?_⟩
  intro now2 lim2 rl2 m2
  by_cases h2 : (m2.authorBot || !m2.inGuild) = true <;>
    simp [botMessageCreate, isEnabled, h2]

/-- C10, witness: concrete emergency stop at instant 0 with empty
rate-limit state. -/
theorem c10_witness :
    (botMessageCreate 0 demoLim ⟨true⟩ ⟨none, none⟩ stopMsg).1.enabled = false ∧
    (botMessageCreate 0 demoLim ⟨true⟩ ⟨none, none⟩ stopMsg).2.2 = KOutcome.emergencyStopped ∧
    (botMessageCreate 0 demoLim ⟨true⟩ ⟨none, none⟩ stopMsg).2.1 = (⟨none, none⟩ : RLState) ∧
    (∀ (now2 : Nat) (lim2 : RateLimits) (rl2 : RLState) (m2 : Msg),
      (botMessageCreate now2 lim2 (botMessageCreate 0 demoLim ⟨true⟩ ⟨none, none⟩ stopMsg).1 rl2 m2).1.enabled = false ∧
      (botMessageCreate now2 lim2 (botMessageCreate 0 demoLim ⟨true⟩ ⟨none, none⟩ stopMsg).1 rl2 m2).2.1 = rl2 ∧
      ((botMessageCreate now2 lim2 (botMessageCreate 0 demoLim ⟨true⟩ ⟨none, none⟩ stopMsg).1 rl2 m2).2.2 = KOutcome.ignored ∨
       (botMessageCreate now2 lim2 (botMessageCreate 0 demoLim ⟨true⟩ ⟨none, none⟩ stopMsg).1 rl2 m2).2.2 = KOutcome.disabledReturn)) :=
  c10_killswitch 0 demoLim ⟨true⟩ ⟨none, none⟩ stopMsg rfl rfl rfl rfl

end SSyntax
